import Mathlib

/-!
Shallow embedding of the Soil_Moisture_ESP32 ingestion servers
(`src/server/soil_server.py` and `src/server/enhanced_soil_server.py`)
and proofs about the claims on their request-handling path.

Modelling conventions:
* Python dictionaries obtained from `json.loads` become association lists
  `JsonObj`; `data[k]` is `pyIndex` (raising `KeyError` in `Except`),
  `data.get(k, d)` is `jgetD`.
* `datetime.datetime.fromtimestamp(x)` becomes `Instant.fromtimestamp x`,
  an instant carrying the (rational) number of seconds since the epoch;
  its ISO-8601 rendering `t.isoformat()` is represented structurally by
  the cells `Cell.iso t` / `BVal.iso t` (the rendering is a function of
  the instant, so carrying the instant itself is a faithful, injective
  stand-in for the rendered string).
* The file system visible to the servers is the map `FS` from file names
  to the list of CSV rows the file holds; `open(f, 'a')` + conditional
  header + row write become `FS.append` / `FS.touch` / `FS.appendRow`,
  ordered exactly as the source orders the fallible dictionary accesses
  around them.
* An exception that escapes `do_POST` (nothing is sent on the socket;
  `http.server` closes the connection) is `Outcome.uncaught`, as opposed
  to `Outcome.response` for an actual HTTP response.
* The ambient wall clock enters as explicit parameters: `today` is the
  formatted current date used in CSV file names, `now` the current
  instant used by `GET /status`.
-/

/-- A JSON value as used in request bodies (strings and numbers suffice
for the fields this server reads). -/
inductive JsonVal where
  | s (x : String)
  | n (x : ℚ)
  deriving DecidableEq, Repr

/-- A decoded JSON object: the dictionary returned by `json.loads`. -/
abbrev JsonObj := List (String × JsonVal)

/-- Dictionary lookup `data[k]` as an `Option` (keys are unique in a
decoded JSON object). -/
def jget (data : JsonObj) (k : String) : Option JsonVal :=
  (data.find? (fun p => p.1 == k)).map (fun p => p.2)

/-- Python `data.get(k, dflt)`. -/
def jgetD (data : JsonObj) (k : String) (dflt : JsonVal) : JsonVal :=
  (jget data k).getD dflt

/-- A Python exception as far as the handlers can distinguish them. -/
inductive PErr where
  | keyError (k : String)
  | typeError (msg : String)
  | valueError (msg : String)
  deriving DecidableEq, Repr

/-- Python `str(e)` for the exceptions above (used by the enhanced
server's 400 body). -/
def PErr.pystr : PErr → String
  | .keyError k => k
  | .typeError msg => msg
  | .valueError msg => msg

/-- Python `data[k]`: the value, or a `KeyError`. -/
def pyIndex (data : JsonObj) (k : String) : Except PErr JsonVal :=
  match jget data k with
  | some v => Except.ok v
  | none => Except.error (PErr.keyError k)

/-- Interpreting a JSON value as a number, as Python arithmetic or a
numeric format specifier does; a string raises a `TypeError`. -/
def asNum : JsonVal → Except PErr ℚ
  | JsonVal.n x => Except.ok x
  | JsonVal.s _ => Except.error (PErr.typeError "unsupported operand type")

/-- Decimal value of a digit string. -/
def pyDigitsVal (cs : List Char) : Nat :=
  cs.foldl (fun n c => n * 10 + (c.toNat - 48)) 0

/-- Python `int(h)` applied to the optional `Content-Length` header value:
`int(None)` raises a `TypeError`, a non-numeric string raises a
`ValueError`. This happens OUTSIDE the `try` block in both servers. -/
def pyInt : Option String → Except PErr Nat
  | none => Except.error (PErr.typeError "int argument must not be NoneType")
  | some h =>
    if !h.data.isEmpty && h.data.all Char.isDigit then
      Except.ok (pyDigitsVal h.data)
    else
      Except.error (PErr.valueError ("invalid literal for int: " ++ h))

/-- The instant produced by `datetime.datetime.fromtimestamp`, identified
by its seconds-since-epoch value. -/
structure Instant where
  sec : ℚ
  deriving DecidableEq, Repr

/-- Model of `datetime.datetime.fromtimestamp x`. -/
def Instant.fromtimestamp (x : ℚ) : Instant := ⟨x⟩

/-- One CSV cell as the `csv` writer serialises it: a plain string, a
number, or the ISO-8601 rendering `t.isoformat()` of an instant. -/
inductive Cell where
  | s (x : String)
  | n (x : ℚ)
  | iso (t : Instant)
  deriving DecidableEq, Repr

/-- The cell written for a JSON value placed in a CSV row. -/
def cellOf : JsonVal → Cell
  | JsonVal.s x => Cell.s x
  | JsonVal.n x => Cell.n x

/-- A CSV row. -/
abbrev Row := List Cell

/-- The file system as the servers see it: file name to rows. -/
abbrev FS := List (String × List Row)

/-- File contents, `none` when the file does not exist
(`os.path.isfile` / `Path.exists`). -/
def FS.look (fs : FS) (name : String) : Option (List Row) :=
  (fs.find? (fun p => p.1 == name)).map (fun p => p.2)

/-- Replace (or create) a file with the given rows. -/
def FS.set : FS → String → List Row → FS
  | [], name, rows => [(name, rows)]
  | p :: rest, name, rows =>
    if p.1 = name then (name, rows) :: rest else p :: FS.set rest name rows

/-- The whole of `soil_server.py`'s append step: check existence, open in
append mode, write the header iff the file is new, write the row. -/
def FS.append (fs : FS) (name : String) (header row : Row) : FS :=
  match FS.look fs name with
  | none => FS.set fs name [header, row]
  | some rows => FS.set fs name (rows ++ [row])

/-- `open(name, 'a')` followed by the conditional header write of
`enhanced_soil_server.py` (both happen before the row cells are
evaluated there): create the file holding just the header iff absent. -/
def FS.touch (fs : FS) (name : String) (header : Row) : FS :=
  match FS.look fs name with
  | none => FS.set fs name [header]
  | some _ => fs

/-- Append one row to an existing (or just-touched) file. -/
def FS.appendRow (fs : FS) (name : String) (row : Row) : FS :=
  FS.set fs name (((FS.look fs name).getD []) ++ [row])

/-- A JSON value inside a response body: string, ISO-rendered instant, or
array of strings (the `/status` endpoint list). -/
inductive BVal where
  | s (x : String)
  | iso (t : Instant)
  | arr (xs : List String)
  deriving DecidableEq, Repr

/-- A JSON response body as written to `wfile`. -/
abbrev Body := List (String × BVal)

/-- An HTTP response: status code, the headers sent with `send_header`,
and the body bytes (`none` when nothing is written after
`end_headers()`). -/
structure Response where
  status : Nat
  headers : List (String × String)
  body : Option Body
  deriving DecidableEq, Repr

/-- What a request handler invocation does on the wire: send a response,
or let an exception escape `do_POST` (the connection is closed with no
response sent). -/
inductive Outcome where
  | response (r : Response)
  | uncaught (e : PErr)
  deriving DecidableEq, Repr

/-- An incoming HTTP request: path, raw `Content-Length` header value
(`none` when the header is absent), and the decoded JSON body (`none`
when the received bytes are not valid JSON, e.g. body truncated below
the declared length). -/
structure Request where
  path : String
  contentLength : Option String
  body : Option JsonObj
  deriving DecidableEq, Repr

def ctHeader : String × String := ("Content-type", "application/json")

def acaoHeader : String × String := ("Access-Control-Allow-Origin", "*")

/-! ## soil_server.py -/

def DATA_DIRECTORY : String := "./server/soil_data_logs/"

/-- Battery ledger file name for the current date
(`soil_server.py` line 59). -/
def battery_filename (today : String) : String :=
  DATA_DIRECTORY ++ "/battery_data_" ++ today ++ ".csv"

/-- Soil ledger file name for the current date
(`soil_server.py` line 68). -/
def soil_filename (today : String) : String :=
  DATA_DIRECTORY ++ "/soil_data_" ++ today ++ ".csv"

def battery_header : Row :=
  [Cell.s "timestamp", Cell.s "device_id", Cell.s "voltage", Cell.s "data_type"]

def soil_header : Row :=
  [Cell.s "timestamp", Cell.s "device_id", Cell.s "moisture_percent",
   Cell.s "voltage", Cell.s "raw_adc", Cell.s "data_type"]

/-- `SoilDataHandler.save_to_csv` of `soil_server.py` (lines 52-89): the
row dictionary is built first (fallible accesses), then the file is
created/appended in one step. -/
def soil_save_to_csv (fs : FS) (data : JsonObj) (timestamp : Instant)
    (data_type : JsonVal) (today : String) : Except PErr FS :=
  if data_type = JsonVal.s "battery" then do
    let did ← pyIndex data "device_id"
    let v ← pyIndex data "voltage"
    let row : Row := [Cell.iso timestamp, cellOf did, cellOf v, cellOf data_type]
    pure (FS.append fs (battery_filename today) battery_header row)
  else do
    let did ← pyIndex data "device_id"
    let m := jgetD data "moisture_percent" (JsonVal.n 0)
    let v ← pyIndex data "voltage"
    let r := jgetD data "raw_adc" (JsonVal.n 0)
    let row : Row := [Cell.iso timestamp, cellOf did, cellOf m, cellOf v,
                      cellOf r, cellOf data_type]
    pure (FS.append fs (soil_filename today) soil_header row)

/-- The `try` block of `soil_server.py`'s `do_POST` up to (not including)
`save_to_csv`: JSON decoding, timestamp conversion, type dispatch, and
the field accesses performed by the console `print` f-strings, in source
order. Returns the converted timestamp, the effective `data_type`
(`data.get('type', 'soil')`) and the decoded object. -/
def soil_tryBlock (body : Option JsonObj) :
    Except PErr (Instant × JsonVal × JsonObj) := do
  let data ← match body with
    | none => Except.error (PErr.valueError "Expecting value")
    | some d => Except.ok d
  let tsv ← pyIndex data "timestamp"
  let ts ← asNum tsv
  let timestamp := Instant.fromtimestamp (ts / 1000)
  let data_type := jgetD data "type" (JsonVal.s "soil")
  if data_type = JsonVal.s "soil" then do
    let _ ← pyIndex data "device_id"
    let m ← pyIndex data "moisture_percent"
    let _ ← asNum m
    let v ← pyIndex data "voltage"
    let _ ← asNum v
    let _ ← pyIndex data "raw_adc"
    pure (timestamp, data_type, data)
  else if data_type = JsonVal.s "battery" then do
    let _ ← pyIndex data "device_id"
    let v ← pyIndex data "voltage"
    let _ ← asNum v
    pure (timestamp, data_type, data)
  else do
    let _ ← pyIndex data "device_id"
    let v ← pyIndex data "voltage"
    let _ ← asNum v
    pure (timestamp, data_type, data)

/-- The 400 response of `soil_server.py` (lines 46-47): status code and
`end_headers()`, no `Content-type` header and no body bytes. -/
def soil_resp400 : Response := { status := 400, headers := [], body := none }

/-- The 404 response of `soil_server.py` (lines 49-50): no headers sent,
no body. -/
def soil_resp404 : Response := { status := 404, headers := [], body := none }

/-- The 200 response of `soil_server.py` (lines 40-43). -/
def soil_resp200 : Response :=
  { status := 200, headers := [ctHeader],
    body := some [("status", BVal.s "success")] }

/-- `SoilDataHandler.do_POST` of `soil_server.py` (lines 16-50).
`int(self.headers['Content-Length'])` and the body read happen before
the `try`, so their exceptions escape the handler. -/
def soil_do_POST (req : Request) (today : String) (fs : FS) : Outcome × FS :=
  if req.path = "/soil-data" then
    match pyInt req.contentLength with
    | Except.error e => (Outcome.uncaught e, fs)
    | Except.ok _ =>
      match soil_tryBlock req.body with
      | Except.error _ => (Outcome.response soil_resp400, fs)
      | Except.ok (timestamp, data_type, data) =>
        match soil_save_to_csv fs data timestamp data_type today with
        | Except.error _ => (Outcome.response soil_resp400, fs)
        | Except.ok fs1 => (Outcome.response soil_resp200, fs1)
  else
    (Outcome.response soil_resp404, fs)

/-! ## enhanced_soil_server.py -/

/-- Daily CSV file name of `enhanced_soil_server.py` (line 96):
`self.data_dir / f"soil_data_{datetime.date.today()}.csv"`. -/
def enh_filename (today : String) : String :=
  "soil_data/soil_data_" ++ today ++ ".csv"

/-- Header row of `enhanced_soil_server.py` (lines 105-106): no
`data_type` column. -/
def enh_header : Row :=
  [Cell.s "timestamp", Cell.s "device_id", Cell.s "moisture_percent",
   Cell.s "voltage", Cell.s "raw_adc"]

/-- `SoilDataHandler.save_to_csv` of `enhanced_soil_server.py`
(lines 94-115). Faithful to the source order: `open(csv_file, 'a')`
creates the file and the header is written when the file was absent,
and only then is the row list evaluated (its `data[...]` accesses can
raise); an error therefore carries the file system as already touched. -/
def enh_save_to_csv (fs : FS) (data : JsonObj) (timestamp : Instant)
    (today : String) : Except (PErr × FS) FS :=
  let name := enh_filename today
  let fs1 := FS.touch fs name enh_header
  match pyIndex data "device_id" with
  | Except.error e => Except.error (e, fs1)
  | Except.ok did =>
  match pyIndex data "moisture_percent" with
  | Except.error e => Except.error (e, fs1)
  | Except.ok m =>
  match pyIndex data "voltage" with
  | Except.error e => Except.error (e, fs1)
  | Except.ok v =>
  match pyIndex data "raw_adc" with
  | Except.error e => Except.error (e, fs1)
  | Except.ok r =>
    Except.ok (FS.appendRow fs1 name
      [Cell.iso timestamp, cellOf did, cellOf m, cellOf v, cellOf r])

/-- The `try` block of `enhanced_soil_server.py`'s `do_POST` up to (not
including) `save_to_csv` (lines 28-37): JSON decoding, timestamp
conversion, and the field accesses of the four console `print` calls in
source order. -/
def enh_tryBlock (body : Option JsonObj) : Except PErr (Instant × JsonObj) := do
  let data ← match body with
    | none => Except.error (PErr.valueError "Expecting value")
    | some d => Except.ok d
  let tsv ← pyIndex data "timestamp"
  let ts ← asNum tsv
  let timestamp := Instant.fromtimestamp (ts / 1000)
  let _ ← pyIndex data "device_id"
  let m ← pyIndex data "moisture_percent"
  let _ ← asNum m
  let v ← pyIndex data "voltage"
  let _ ← asNum v
  let _ ← pyIndex data "raw_adc"
  pure (timestamp, data)

/-- The 400 response of `enhanced_soil_server.py` (lines 56-60): JSON
error body whose message is `str(e)`. -/
def enh_resp400 (e : PErr) : Response :=
  { status := 400, headers := [ctHeader],
    body := some [("status", BVal.s "error"), ("message", BVal.s (PErr.pystr e))] }

/-- The 200 response of `enhanced_soil_server.py` (lines 43-52): JSON
success body whose `timestamp` field is `timestamp.isoformat()`. -/
def enh_resp200 (timestamp : Instant) : Response :=
  { status := 200, headers := [ctHeader, acaoHeader],
    body := some [("status", BVal.s "success"),
                  ("message", BVal.s "Data received and saved"),
                  ("timestamp", BVal.iso timestamp)] }

/-- The `/test` response of `enhanced_soil_server.py` (lines 62-69). -/
def enh_respTest : Response :=
  { status := 200, headers := [ctHeader],
    body := some [("status", BVal.s "server_running"),
                  ("message", BVal.s "Soil sensor server is active")] }

/-- The POST 404 response of `enhanced_soil_server.py` (lines 71-76). -/
def enh_resp404 : Response :=
  { status := 404, headers := [ctHeader],
    body := some [("status", BVal.s "error"),
                  ("message", BVal.s "Endpoint not found")] }

/-- `SoilDataHandler.do_POST` of `enhanced_soil_server.py` (lines 22-76).
As in the simple server, the `Content-Length` conversion happens before
the `try`, so its exceptions escape the handler. -/
def enh_do_POST (req : Request) (today : String) (fs : FS) : Outcome × FS :=
  if req.path = "/soil-data" then
    match pyInt req.contentLength with
    | Except.error e => (Outcome.uncaught e, fs)
    | Except.ok _ =>
      match enh_tryBlock req.body with
      | Except.error e => (Outcome.response (enh_resp400 e), fs)
      | Except.ok (timestamp, data) =>
        match enh_save_to_csv fs data timestamp today with
        | Except.error (e, fs1) => (Outcome.response (enh_resp400 e), fs1)
        | Except.ok fs1 => (Outcome.response (enh_resp200 timestamp), fs1)
  else if req.path = "/test" then
    (Outcome.response enh_respTest, fs)
  else
    (Outcome.response enh_resp404, fs)

/-- The `/status` response of `enhanced_soil_server.py` (lines 79-89). -/
def enh_respStatus (now : Instant) : Response :=
  { status := 200, headers := [ctHeader],
    body := some [("status", BVal.s "running"),
                  ("server", BVal.s "Soil Moisture Data Server"),
                  ("time", BVal.iso now),
                  ("endpoints", BVal.arr ["/soil-data (POST)", "/status (GET)", "/test (POST)"])] }

/-- `SoilDataHandler.do_GET` of `enhanced_soil_server.py` (lines 78-92).
The 404 branch sends no `Content-type` header and no body. -/
def enh_do_GET (req : Request) (now : Instant) (fs : FS) : Outcome × FS :=
  if req.path = "/status" then
    (Outcome.response (enh_respStatus now), fs)
  else
    (Outcome.response { status := 404, headers := [], body := none }, fs)

/-- The value of a top-level field of a response's JSON body (`none`
when the body is absent or lacks the key). -/
def Response.field (r : Response) (k : String) : Option BVal :=
  (r.body.getD []).lookup k

/-! ## Fixtures: concrete requests used by witnesses and counterexamples -/

/-- A body holding exactly the three required keys. -/
def bodyReq3 : JsonObj :=
  [("device_id", JsonVal.s "esp32-1"), ("timestamp", JsonVal.n 1700000000000),
   ("voltage", JsonVal.n 3)]

/-- A fully populated soil body. -/
def bodyFull5 : JsonObj :=
  [("device_id", JsonVal.s "esp32-1"), ("timestamp", JsonVal.n 1700000000000),
   ("moisture_percent", JsonVal.n 42), ("voltage", JsonVal.n 3),
   ("raw_adc", JsonVal.n 512)]

/-- A battery body without the soil-specific fields. -/
def bodyBattery : JsonObj :=
  [("device_id", JsonVal.s "esp32-1"), ("timestamp", JsonVal.n 1700000000000),
   ("voltage", JsonVal.n 3), ("type", JsonVal.s "battery")]

/-- Whether an `Except` computation raised. -/
def isErrB {ε α : Type} : Except ε α → Bool
  | Except.error _ => true
  | Except.ok _ => false

/-- The POST `/soil-data` request carrying the given decoded body (the
`Content-Length` value is read but otherwise unused by the handlers). -/
def mkReq (body : JsonObj) : Request :=
  { path := "/soil-data", contentLength := some "99", body := some body }

/-- A body the enhanced server accepts: all five fields present, the
numeric ones numeric (`device_id` and `raw_adc` are only interpolated
into strings, so any JSON value passes). -/
def enh_accepts (data : JsonObj) : Bool :=
  (match jget data "timestamp" with | some (JsonVal.n _) => true | _ => false)
  && (jget data "device_id").isSome
  && (match jget data "moisture_percent" with | some (JsonVal.n _) => true | _ => false)
  && (match jget data "voltage" with | some (JsonVal.n _) => true | _ => false)
  && (jget data "raw_adc").isSome

/-- The file system after a sequence of bodies has been POSTed to
`/soil-data` on the enhanced server, starting from `fs` — the only
state carried from one request to the next (and across process
restarts) is the file system itself, exactly as in the code, whose
header-exists check is `csv_file.exists()` on disk. -/
def postAll (bodies : List JsonObj) (today : String) (fs : FS) : FS :=
  bodies.foldl (fun acc b => (enh_do_POST (mkReq b) today acc).2) fs

/-- A CSV data row (as opposed to the header row): its first cell is an
ISO-rendered timestamp. -/
def isDataRow (r : Row) : Prop :=
  ∃ t rest, r = Cell.iso t :: rest

/-! ## Helper lemmas -/

theorem exceptBind_ok {ε α β : Type} (x : α) (f : α → Except ε β) :
    (Except.ok x >>= f : Except ε β) = f x := rfl

theorem exceptBind_err {ε α β : Type} (e : ε) (f : α → Except ε β) :
    (Except.error e >>= f : Except ε β) = Except.error e := rfl

theorem exceptPure {ε α : Type} (x : α) :
    (pure x : Except ε α) = Except.ok x := rfl

theorem jgetD_of_get {data : JsonObj} {k : String} {v dflt : JsonVal}
    (h : jget data k = some v) : jgetD data k dflt = v := by
  simp [jgetD, h]

theorem jgetD_of_none {data : JsonObj} {k : String} {dflt : JsonVal}
    (h : jget data k = none) : jgetD data k dflt = dflt := by
  simp [jgetD, h]

theorem pyInt_99 : pyInt (some "99") = Except.ok 99 := rfl

/-! ## Claim theorems -/

/-- C9: for every POST request to `/test`, the enhanced server responds
200 with the same fixed JSON liveness body, and the handling of the
request performs no filesystem write: the file system after the request
is exactly the one before it, so every CSV ledger is unchanged. -/
theorem C9_test_endpoint_no_write (req : Request) (today : String) (fs : FS)
    (hpath : req.path = "/test") :
    enh_do_POST req today fs = (Outcome.response enh_respTest, fs) := by
  simp [enh_do_POST, hpath]

/-- C9 witness: the theorem applied to a concrete `/test` request over a
nonempty file system. -/
theorem C9_test_endpoint_no_write_witness :
    enh_do_POST { path := "/test", contentLength := some "0", body := none }
        "2025-10-12" [(enh_filename "2025-10-12", [enh_header])]
      = (Outcome.response enh_respTest, [(enh_filename "2025-10-12", [enh_header])]) :=
  C9_test_endpoint_no_write _ "2025-10-12" _ rfl

/-- C1 counterexample: a body holding exactly `device_id`, `timestamp`
and `voltage` (no `type`, so the type defaults to soil) is REJECTED with
status 400 by both servers and no row is appended — the claim promises a
200 and an appended row. The console-log step reads
`data['moisture_percent']` before any defaulting can happen, raising a
`KeyError`. -/
theorem C1_counterexample :
    soil_do_POST { path := "/soil-data", contentLength := some "70",
                   body := some bodyReq3 } "20251012" []
        = (Outcome.response soil_resp400, [])
      ∧ enh_do_POST { path := "/soil-data", contentLength := some "70",
                      body := some bodyReq3 } "2025-10-12" []
        = (Outcome.response (enh_resp400 (PErr.keyError "moisture_percent")), [])
      ∧ soil_resp400.status = 400 ∧ (enh_resp400 (PErr.keyError "moisture_percent")).status = 400 :=
  ⟨rfl, rfl, rfl, rfl⟩

/-- C1 amended: absence of `moisture_percent` and `raw_adc` is tolerated
by defaulting only when the body carries an explicit `type` different
from `"soil"` (the battery branch, or an unknown type, never reads those
fields before `save_to_csv` defaults them): such requests get 200 and a
row is appended. When the effective type is `"soil"` — explicitly or
because the `type` field is absent — a body lacking `moisture_percent`
is rejected with 400 and no row is appended, because the console-log
f-string reads `data['moisture_percent']` before any defaulting. -/
theorem C1_amended (data : JsonObj) (did tv : JsonVal) (ts v : ℚ)
    (today : String) (fs : FS)
    (hdid : jget data "device_id" = some did)
    (hts : jget data "timestamp" = some (JsonVal.n ts))
    (hv : jget data "voltage" = some (JsonVal.n v))
    (hm : jget data "moisture_percent" = none)
    (hr : jget data "raw_adc" = none) :
    (jget data "type" = some tv → tv ≠ JsonVal.s "soil" →
      soil_do_POST { path := "/soil-data", contentLength := some "99",
                     body := some data } today fs
        = (Outcome.response soil_resp200,
           if tv = JsonVal.s "battery" then
             FS.append fs (battery_filename today) battery_header
               [Cell.iso (Instant.fromtimestamp (ts / 1000)), cellOf did,
                Cell.n v, cellOf tv]
           else
             FS.append fs (soil_filename today) soil_header
               [Cell.iso (Instant.fromtimestamp (ts / 1000)), cellOf did,
                Cell.n 0, Cell.n v, Cell.n 0, cellOf tv]))
    ∧ (jgetD data "type" (JsonVal.s "soil") = JsonVal.s "soil" →
        soil_do_POST { path := "/soil-data", contentLength := some "99",
                       body := some data } today fs
          = (Outcome.response soil_resp400, fs)) := by
  constructor
  · intro htv hne
    have hget : jgetD data "type" (JsonVal.s "soil") = tv := jgetD_of_get htv
    by_cases hb : tv = JsonVal.s "battery"
    · subst hb
      simp [soil_do_POST, soil_tryBlock, soil_save_to_csv, pyIndex, asNum, cellOf,
            pyInt_99, hget, hne, hdid, hts, hv, hm, hr,
            jgetD_of_none hm, jgetD_of_none hr,
            exceptBind_ok, exceptBind_err, exceptPure]
    · simp [soil_do_POST, soil_tryBlock, soil_save_to_csv, pyIndex, asNum, cellOf,
            pyInt_99, hget, hne, hb, hdid, hts, hv, hm, hr,
            jgetD_of_none hm, jgetD_of_none hr,
            exceptBind_ok, exceptBind_err, exceptPure]
  · intro hsoil
    simp [soil_do_POST, soil_tryBlock, pyIndex, asNum,
          pyInt_99, hsoil, hdid, hts, hv, hm,
          exceptBind_ok, exceptBind_err, exceptPure]

/-- C1 amended witness: a battery body without `moisture_percent` or
`raw_adc` is accepted and routed to the battery ledger. -/
theorem C1_amended_witness :
    soil_do_POST { path := "/soil-data", contentLength := some "99",
                   body := some bodyBattery } "20251012" []
      = (Outcome.response soil_resp200,
         FS.append [] (battery_filename "20251012") battery_header
           [Cell.iso (Instant.fromtimestamp (1700000000000 / 1000)),
            cellOf (JsonVal.s "esp32-1"), Cell.n 3, cellOf (JsonVal.s "battery")]) := by
  have h := (C1_amended bodyBattery (JsonVal.s "esp32-1") (JsonVal.s "battery")
      1700000000000 3 "20251012" [] rfl rfl rfl rfl rfl).1 rfl (by decide)
  simpa using h

/-- C2 counterexample: a POST to `/soil-data` whose `Content-Length`
header is missing does NOT get a 400 — `int(self.headers[...])` runs
before the `try` in both servers, so the `TypeError` escapes the handler
and the request is left unanswered (no response of any kind). -/
theorem C2_counterexample :
    soil_do_POST { path := "/soil-data", contentLength := none,
                   body := some bodyFull5 } "20251012" []
        = (Outcome.uncaught (PErr.typeError "int argument must not be NoneType"), [])
      ∧ enh_do_POST { path := "/soil-data", contentLength := none,
                      body := some bodyFull5 } "2025-10-12" []
        = (Outcome.uncaught (PErr.typeError "int argument must not be NoneType"), [])
      ∧ ∀ r : Response,
          Outcome.uncaught (PErr.typeError "int argument must not be NoneType")
            ≠ Outcome.response r :=
  ⟨rfl, rfl, fun _ h => Outcome.noConfusion h⟩

/-- C2 amended: only exceptions raised inside the `try` block (JSON
parsing through CSV append) map to a single 400 response; the
`Content-Length` conversion happens before the `try`, so a missing or
non-numeric `Content-Length` header raises an exception that escapes the
handler and the request receives no response at all. Whenever the header
does parse, every request to `/soil-data` is answered, with the fixed
200 success response or the server's 400 response. -/
theorem C2_amended (req : Request) (today : String) (fs : FS)
    (hpath : req.path = "/soil-data") :
    (∀ e, pyInt req.contentLength = Except.error e →
        soil_do_POST req today fs = (Outcome.uncaught e, fs)
          ∧ enh_do_POST req today fs = (Outcome.uncaught e, fs))
    ∧ (∀ n, pyInt req.contentLength = Except.ok n →
        (∃ r fs1, soil_do_POST req today fs = (Outcome.response r, fs1)
            ∧ (r = soil_resp200 ∨ (r = soil_resp400 ∧ fs1 = fs)))
          ∧ (∃ r fs1, enh_do_POST req today fs = (Outcome.response r, fs1)
            ∧ (r.status = 200 ∨ (r.status = 400 ∧ ∃ e, r = enh_resp400 e)))) := by
  constructor
  · intro e he
    constructor
    · simp [soil_do_POST, hpath, he]
    · simp [enh_do_POST, hpath, he]
  · intro n hn
    constructor
    · cases h1 : soil_tryBlock req.body with
      | error e =>
        exact ⟨soil_resp400, fs, by simp [soil_do_POST, hpath, hn, h1], Or.inr ⟨rfl, rfl⟩⟩
      | ok x =>
        obtain ⟨t, dt, d⟩ := x
        cases h2 : soil_save_to_csv fs d t dt today with
        | error e =>
          exact ⟨soil_resp400, fs, by simp [soil_do_POST, hpath, hn, h1, h2], Or.inr ⟨rfl, rfl⟩⟩
        | ok fs1 =>
          exact ⟨soil_resp200, fs1, by simp [soil_do_POST, hpath, hn, h1, h2], Or.inl rfl⟩
    · cases h1 : enh_tryBlock req.body with
      | error e =>
        exact ⟨enh_resp400 e, fs, by simp [enh_do_POST, hpath, hn, h1],
               Or.inr ⟨rfl, e, rfl⟩⟩
      | ok x =>
        obtain ⟨t, d⟩ := x
        cases h2 : enh_save_to_csv fs d t today with
        | error p =>
          exact ⟨enh_resp400 p.1, p.2, by simp [enh_do_POST, hpath, hn, h1, h2],
                 Or.inr ⟨rfl, p.1, rfl⟩⟩
        | ok fs1 =>
          exact ⟨enh_resp200 t, fs1, by simp [enh_do_POST, hpath, hn, h1, h2], Or.inl rfl⟩

/-- C2 amended witness: a concrete request with no `Content-Length`
header escapes unanswered, by the amended theorem. -/
theorem C2_amended_witness :
    soil_do_POST { path := "/soil-data", contentLength := none, body := none }
        "20251012" []
      = (Outcome.uncaught (PErr.typeError "int argument must not be NoneType"), []) :=
  (((C2_amended { path := "/soil-data", contentLength := none, body := none }
      "20251012" [] rfl).1) _ rfl).1

theorem FS.look_set_self (fs : FS) (name : String) (rows : List Row) :
    FS.look (FS.set fs name rows) name = some rows := by
  induction fs with
  | nil => simp [FS.set, FS.look]
  | cons p rest ih =>
    by_cases hp : p.1 = name
    · simp [FS.set, FS.look, hp]
    · simp [FS.set, FS.look, hp] at ih ⊢
      simpa [List.find?, hp] using ih

theorem FS.look_set_ne (fs : FS) (name other : String) (rows : List Row)
    (h : other ≠ name) :
    FS.look (FS.set fs name rows) other = FS.look fs other := by
  have hb : (name == other) = false := by simp [Ne.symm h]
  induction fs with
  | nil => simp [FS.set, FS.look, List.find?, hb]
  | cons p rest ih =>
    by_cases hp : p.1 = name
    · have hpb : (p.1 == other) = false := by simp [hp, Ne.symm h]
      simp [FS.set, FS.look, List.find?, hp, hb, hpb]
    · by_cases hq : p.1 = other
      · simp [FS.set, FS.look, List.find?, hp, hq, h]
      · have hqb : (p.1 == other) = false := by simp [hq]
        simp [FS.set, FS.look, List.find?, hp, hqb] at ih ⊢
        exact ih

theorem FS.look_touch_self (fs : FS) (name : String) (hdr : Row) :
    FS.look (FS.touch fs name hdr) name
      = some ((FS.look fs name).getD [hdr]) := by
  cases hf : FS.look fs name with
  | none => simp [FS.touch, hf, FS.look_set_self]
  | some rows => simp [FS.touch, hf]

theorem FS.look_touch_ne (fs : FS) (name other : String) (hdr : Row)
    (h : other ≠ name) :
    FS.look (FS.touch fs name hdr) other = FS.look fs other := by
  cases hf : FS.look fs name with
  | none => simp [FS.touch, hf, FS.look_set_ne _ _ _ _ h]
  | some rows => simp [FS.touch, hf]

theorem FS.look_append_self (fs : FS) (name : String) (hdr row : Row) :
    FS.look (FS.append fs name hdr row) name
      = some ((FS.look fs name).getD [hdr] ++ [row]) := by
  cases hf : FS.look fs name with
  | none => simp [FS.append, hf, FS.look_set_self]
  | some rows => simp [FS.append, hf, FS.look_set_self]

theorem FS.look_append_ne (fs : FS) (name other : String) (hdr row : Row)
    (h : other ≠ name) :
    FS.look (FS.append fs name hdr row) other = FS.look fs other := by
  cases hf : FS.look fs name with
  | none => simp [FS.append, hf, FS.look_set_ne _ _ _ _ h]
  | some rows => simp [FS.append, hf, FS.look_set_ne _ _ _ _ h]

theorem FS.look_appendRow_self (fs : FS) (name : String) (row : Row) :
    FS.look (FS.appendRow fs name row) name
      = some ((FS.look fs name).getD [] ++ [row]) := by
  simp [FS.appendRow, FS.look_set_self]

theorem FS.look_appendRow_ne (fs : FS) (name other : String) (row : Row)
    (h : other ≠ name) :
    FS.look (FS.appendRow fs name row) other = FS.look fs other := by
  simp [FS.appendRow, FS.look_set_ne _ _ _ _ h]

theorem soil_tryBlock_err_of_missing (data : JsonObj)
    (h : jget data "device_id" = none ∨ jget data "timestamp" = none
         ∨ jget data "voltage" = none) :
    isErrB (soil_tryBlock (some data)) = true := by
  rcases h with h | h | h
  · cases hts : jget data "timestamp" with
    | none => simp [soil_tryBlock, pyIndex, isErrB, hts, exceptBind_err, exceptBind_ok]
    | some tv =>
      cases tv with
      | s x => simp [soil_tryBlock, pyIndex, asNum, isErrB, hts, exceptBind_err, exceptBind_ok]
      | n ts =>
        simp only [soil_tryBlock, pyIndex, asNum, hts, exceptBind_ok, exceptBind_err]
        split
        · simp [pyIndex, h, isErrB, exceptBind_err, exceptBind_ok]
        · split
          · simp [pyIndex, h, isErrB, exceptBind_err, exceptBind_ok]
          · simp [pyIndex, h, isErrB, exceptBind_err, exceptBind_ok]
  · simp [soil_tryBlock, pyIndex, isErrB, h, exceptBind_err, exceptBind_ok]
  · cases hts : jget data "timestamp" with
    | none => simp [soil_tryBlock, pyIndex, isErrB, hts, exceptBind_err, exceptBind_ok]
    | some tv =>
      cases tv with
      | s x => simp [soil_tryBlock, pyIndex, asNum, isErrB, hts, exceptBind_err, exceptBind_ok]
      | n ts =>
        simp only [soil_tryBlock, pyIndex, asNum, hts, exceptBind_ok, exceptBind_err]
        split
        · cases hd : jget data "device_id" with
          | none => simp [hd, isErrB, exceptBind_err, exceptBind_ok]
          | some dv =>
            cases hm : jget data "moisture_percent" with
            | none => simp [hd, hm, isErrB, exceptBind_err, exceptBind_ok]
            | some mv =>
              cases mv with
              | s x => simp [hd, hm, asNum, isErrB, exceptBind_err, exceptBind_ok]
              | n m => simp [hd, hm, h, asNum, isErrB, exceptBind_err, exceptBind_ok]
        · split
          · cases hd : jget data "device_id" with
            | none => simp [hd, isErrB, exceptBind_err, exceptBind_ok]
            | some dv => simp [hd, h, isErrB, exceptBind_err, exceptBind_ok]
          · cases hd : jget data "device_id" with
            | none => simp [hd, isErrB, exceptBind_err, exceptBind_ok]
            | some dv => simp [hd, h, isErrB, exceptBind_err, exceptBind_ok]

theorem enh_tryBlock_err_of_missing (data : JsonObj)
    (h : jget data "device_id" = none ∨ jget data "timestamp" = none
         ∨ jget data "voltage" = none) :
    isErrB (enh_tryBlock (some data)) = true := by
  rcases h with h | h | h
  · cases hts : jget data "timestamp" with
    | none => simp [enh_tryBlock, pyIndex, isErrB, hts, exceptBind_err, exceptBind_ok]
    | some tv =>
      cases tv with
      | s x => simp [enh_tryBlock, pyIndex, asNum, isErrB, hts, exceptBind_err, exceptBind_ok]
      | n ts => simp [enh_tryBlock, pyIndex, asNum, isErrB, hts, h, exceptBind_err, exceptBind_ok]
  · simp [enh_tryBlock, pyIndex, isErrB, h, exceptBind_err, exceptBind_ok]
  · cases hts : jget data "timestamp" with
    | none => simp [enh_tryBlock, pyIndex, isErrB, hts, exceptBind_err, exceptBind_ok]
    | some tv =>
      cases tv with
      | s x => simp [enh_tryBlock, pyIndex, asNum, isErrB, hts, exceptBind_err, exceptBind_ok]
      | n ts =>
        cases hd : jget data "device_id" with
        | none => simp [enh_tryBlock, pyIndex, asNum, isErrB, hts, hd, exceptBind_err, exceptBind_ok]
        | some dv =>
          cases hm : jget data "moisture_percent" with
          | none => simp [enh_tryBlock, pyIndex, asNum, isErrB, hts, hd, hm, exceptBind_err, exceptBind_ok]
          | some mv =>
            cases mv with
            | s x => simp [enh_tryBlock, pyIndex, asNum, isErrB, hts, hd, hm, exceptBind_err, exceptBind_ok]
            | n m => simp [enh_tryBlock, pyIndex, asNum, isErrB, hts, hd, hm, h, exceptBind_err, exceptBind_ok]

/-- C3: a POST `/soil-data` body missing `device_id`, `timestamp` or
`voltage` gets a 400 from both servers and the file system is returned
exactly as it was: no data row and no header row is written anywhere
(the failing field access happens in the console-log step, before
`save_to_csv` is reached). -/
theorem C3_missing_required_field_rejected (req : Request) (data : JsonObj)
    (n : Nat) (today : String) (fs : FS)
    (hpath : req.path = "/soil-data")
    (hcl : pyInt req.contentLength = Except.ok n)
    (hbody : req.body = some data)
    (hmiss : jget data "device_id" = none ∨ jget data "timestamp" = none
             ∨ jget data "voltage" = none) :
    soil_do_POST req today fs = (Outcome.response soil_resp400, fs)
      ∧ ∃ e, enh_do_POST req today fs = (Outcome.response (enh_resp400 e), fs) := by
  constructor
  · have herr := soil_tryBlock_err_of_missing data hmiss
    cases h1 : soil_tryBlock (some data) with
    | error e => simp [soil_do_POST, hpath, hcl, hbody, h1]
    | ok x => rw [h1] at herr; simp [isErrB] at herr
  · have herr := enh_tryBlock_err_of_missing data hmiss
    cases h1 : enh_tryBlock (some data) with
    | error e => exact ⟨e, by simp [enh_do_POST, hpath, hcl, hbody, h1]⟩
    | ok x => rw [h1] at herr; simp [isErrB] at herr

/-- C3 witness: a body holding only `device_id` is rejected by both
servers and a nonempty ledger state is untouched. -/
theorem C3_missing_required_field_rejected_witness :
    soil_do_POST { path := "/soil-data", contentLength := some "20",
                   body := some [("device_id", JsonVal.s "esp32-1")] }
        "20251012" [(soil_filename "20251012", [soil_header])]
      = (Outcome.response soil_resp400, [(soil_filename "20251012", [soil_header])])
    ∧ ∃ e, enh_do_POST { path := "/soil-data", contentLength := some "20",
                         body := some [("device_id", JsonVal.s "esp32-1")] }
        "20251012" [(soil_filename "20251012", [soil_header])]
      = (Outcome.response (enh_resp400 e), [(soil_filename "20251012", [soil_header])]) :=
  C3_missing_required_field_rejected _ _ 20 "20251012" _ rfl rfl rfl
    (Or.inr (Or.inl rfl))

theorem enh_accepts_inv (data : JsonObj) (h : enh_accepts data = true) :
    ∃ (ts : ℚ) (did : JsonVal) (m v : ℚ) (r : JsonVal),
      jget data "timestamp" = some (JsonVal.n ts)
        ∧ jget data "device_id" = some did
        ∧ jget data "moisture_percent" = some (JsonVal.n m)
        ∧ jget data "voltage" = some (JsonVal.n v)
        ∧ jget data "raw_adc" = some r := by
  simp only [enh_accepts, Bool.and_eq_true] at h
  obtain ⟨⟨⟨⟨h1, h2⟩, h3⟩, h4⟩, h5⟩ := h
  cases hts : jget data "timestamp" with
  | none => rw [hts] at h1; simp at h1
  | some tv =>
    cases tv with
    | s x => rw [hts] at h1; simp at h1
    | n ts =>
      cases hm : jget data "moisture_percent" with
      | none => rw [hm] at h3; simp at h3
      | some mv =>
        cases mv with
        | s x => rw [hm] at h3; simp at h3
        | n m =>
          cases hv : jget data "voltage" with
          | none => rw [hv] at h4; simp at h4
          | some vv =>
            cases vv with
            | s x => rw [hv] at h4; simp at h4
            | n v =>
              obtain ⟨did, hdid⟩ := Option.isSome_iff_exists.mp h2
              obtain ⟨r, hr⟩ := Option.isSome_iff_exists.mp h5
              exact ⟨ts, did, m, v, r, rfl, hdid, rfl, rfl, hr⟩

theorem enh_post_success (data : JsonObj) (today : String) (fs : FS)
    (ts : ℚ) (did : JsonVal) (m v : ℚ) (r : JsonVal)
    (hts : jget data "timestamp" = some (JsonVal.n ts))
    (hdid : jget data "device_id" = some did)
    (hm : jget data "moisture_percent" = some (JsonVal.n m))
    (hv : jget data "voltage" = some (JsonVal.n v))
    (hr : jget data "raw_adc" = some r) :
    enh_do_POST (mkReq data) today fs
      = (Outcome.response (enh_resp200 (Instant.fromtimestamp (ts / 1000))),
         FS.appendRow (FS.touch fs (enh_filename today) enh_header)
           (enh_filename today)
           [Cell.iso (Instant.fromtimestamp (ts / 1000)), cellOf did,
            Cell.n m, Cell.n v, cellOf r]) := by
  simp [enh_do_POST, mkReq, enh_tryBlock, enh_save_to_csv, pyIndex, asNum, cellOf,
        pyInt_99, hts, hdid, hm, hv, hr,
        exceptBind_ok, exceptBind_err, exceptPure]

theorem isDataRow_ne_header (r : Row) (h : isDataRow r) : r ≠ enh_header := by
  obtain ⟨t, rest, rfl⟩ := h
  simp [enh_header]

theorem postAll_cons (b : JsonObj) (bs : List JsonObj) (today : String) (fs : FS) :
    postAll (b :: bs) today fs = postAll bs today (enh_do_POST (mkReq b) today fs).2 := rfl

theorem postAll_preserves (bodies : List JsonObj) (today : String) (fs : FS)
    (rows : List Row)
    (hacc : ∀ b ∈ bodies, enh_accepts b = true)
    (hfs : FS.look fs (enh_filename today) = some (enh_header :: rows))
    (hrows : ∀ r ∈ rows, isDataRow r) :
    ∃ dataRows : List Row,
      FS.look (postAll bodies today fs) (enh_filename today)
          = some (enh_header :: dataRows)
        ∧ dataRows.length = rows.length + bodies.length
        ∧ ∀ r ∈ dataRows, isDataRow r := by
  induction bodies generalizing fs rows with
  | nil =>
    exact ⟨rows, by simpa [postAll] using hfs, by simp, hrows⟩
  | cons b bs ih =>
    obtain ⟨ts, did, m, v, r, hts, hdid, hm, hv, hr⟩ :=
      enh_accepts_inv b (hacc b (List.mem_cons_self b bs))
    have hstep := enh_post_success b today fs ts did m v r hts hdid hm hv hr
    have hlook : FS.look (enh_do_POST (mkReq b) today fs).2 (enh_filename today)
        = some (enh_header
            :: (rows ++ [[Cell.iso (Instant.fromtimestamp (ts / 1000)), cellOf did,
                          Cell.n m, Cell.n v, cellOf r]])) := by
      rw [hstep]
      rw [FS.look_appendRow_self, FS.look_touch_self, hfs]
      simp
    obtain ⟨dataRows, h1, h2, h3⟩ :=
      ih (enh_do_POST (mkReq b) today fs).2 _
        (fun b hb => hacc b (List.mem_cons_of_mem _ hb)) hlook
        (by
          intro q hq
          rcases List.mem_append.mp hq with hq | hq
          · exact hrows q hq
          · simp at hq
            subst hq
            exact ⟨_, _, rfl⟩)
    refine ⟨dataRows, ?_, ?_, h3⟩
    · rw [postAll_cons]
      exact h1
    · simp at h2
      simp [h2]
      omega

/-- C4: header-write idempotence of the enhanced server. Starting from a
file system without the daily file, after any nonempty sequence of N
accepted POSTs the daily CSV holds exactly one header row followed by
exactly N data rows, none of which equals the header. The second
conjunct expresses restart-independence: the only state threaded from
post to post is the file system itself (the header-exists check is
`csv_file.exists()` on disk, not in-memory state), so splitting the
sequence at any point — a process restart — changes nothing. -/
theorem C4_header_written_once (bodies : List JsonObj) (today : String)
    (hacc : ∀ b ∈ bodies, enh_accepts b = true) (hne : bodies ≠ []) :
    (∃ dataRows : List Row,
      FS.look (postAll bodies today []) (enh_filename today)
          = some (enh_header :: dataRows)
        ∧ dataRows.length = bodies.length
        ∧ ∀ r ∈ dataRows, r ≠ enh_header)
    ∧ ∀ part1 part2 : List JsonObj, bodies = part1 ++ part2 →
        postAll bodies today [] = postAll part2 today (postAll part1 today []) := by
  constructor
  · cases bodies with
    | nil => exact absurd rfl hne
    | cons b bs =>
      obtain ⟨ts, did, m, v, r, hts, hdid, hm, hv, hr⟩ :=
        enh_accepts_inv b (hacc b (List.mem_cons_self b bs))
      have hstep := enh_post_success b today [] ts did m v r hts hdid hm hv hr
      have hlook : FS.look (enh_do_POST (mkReq b) today []).2 (enh_filename today)
          = some (enh_header
              :: [[Cell.iso (Instant.fromtimestamp (ts / 1000)), cellOf did,
                   Cell.n m, Cell.n v, cellOf r]]) := by
        rw [hstep]
        rw [FS.look_appendRow_self, FS.look_touch_self]
        simp [FS.look]
      obtain ⟨dataRows, h1, h2, h3⟩ :=
        postAll_preserves bs today (enh_do_POST (mkReq b) today []).2 _
          (fun b hb => hacc b (List.mem_cons_of_mem _ hb)) hlook
          (by
            intro q hq
            simp at hq
            subst hq
            exact ⟨_, _, rfl⟩)
      refine ⟨dataRows, ?_, ?_, fun r hr => isDataRow_ne_header r (h3 r hr)⟩
      · rw [postAll_cons]
        exact h1
      · simp at h2
        simp [h2]
        omega
  · intro part1 part2 hsplit
    subst hsplit
    simp [postAll, List.foldl_append]

/-- C4 witness: two concrete posts of the same full soil body yield one
header and two data rows, and the run can be split at any point. -/
theorem C4_header_written_once_witness :
    (∃ dataRows : List Row,
      FS.look (postAll [bodyFull5, bodyFull5] "2025-10-12" [])
            (enh_filename "2025-10-12")
          = some (enh_header :: dataRows)
        ∧ dataRows.length = [bodyFull5, bodyFull5].length
        ∧ ∀ r ∈ dataRows, r ≠ enh_header)
    ∧ ∀ part1 part2 : List JsonObj, [bodyFull5, bodyFull5] = part1 ++ part2 →
        postAll [bodyFull5, bodyFull5] "2025-10-12" []
          = postAll part2 "2025-10-12" (postAll part1 "2025-10-12" []) :=
  C4_header_written_once [bodyFull5, bodyFull5] "2025-10-12"
    (by intro b hb; simp at hb; subst hb; rfl)
    (by simp)

/-- C5: type routing and schema of `soil_server.py`. A record with
`type: "battery"` is appended to the battery ledger with exactly the
columns `timestamp, device_id, voltage, data_type` in that order; a
record whose effective type (`data.get('type', 'soil')`, so `soil` when
the field is absent) is anything other than `"battery"` is appended to
the soil ledger with exactly the columns `timestamp, device_id,
moisture_percent, voltage, raw_adc, data_type` in that order, the
moisture and raw-ADC cells defaulting to 0 when absent. -/
theorem C5_type_routing (data : JsonObj) (did : JsonVal) (ts v : ℚ)
    (today : String) (fs : FS)
    (hdid : jget data "device_id" = some did)
    (hts : jget data "timestamp" = some (JsonVal.n ts))
    (hv : jget data "voltage" = some (JsonVal.n v)) :
    (jget data "type" = some (JsonVal.s "battery") →
      soil_do_POST (mkReq data) today fs
        = (Outcome.response soil_resp200,
           FS.append fs (battery_filename today) battery_header
             [Cell.iso (Instant.fromtimestamp (ts / 1000)), cellOf did,
              Cell.n v, Cell.s "battery"]))
    ∧ (∀ tv, jgetD data "type" (JsonVal.s "soil") = tv →
        tv ≠ JsonVal.s "battery" →
        (tv = JsonVal.s "soil" →
          ∃ m : ℚ, jget data "moisture_percent" = some (JsonVal.n m)
            ∧ (jget data "raw_adc").isSome) →
        soil_do_POST (mkReq data) today fs
          = (Outcome.response soil_resp200,
             FS.append fs (soil_filename today) soil_header
               [Cell.iso (Instant.fromtimestamp (ts / 1000)), cellOf did,
                cellOf (jgetD data "moisture_percent" (JsonVal.n 0)), Cell.n v,
                cellOf (jgetD data "raw_adc" (JsonVal.n 0)), cellOf tv])) := by
  constructor
  · intro htv
    simp [soil_do_POST, mkReq, soil_tryBlock, soil_save_to_csv, pyIndex, asNum,
          cellOf, pyInt_99, jgetD_of_get htv, hdid, hts, hv,
          exceptBind_ok, exceptBind_err, exceptPure]
  · intro tv hget hne hmoist
    by_cases hsoil : tv = JsonVal.s "soil"
    · obtain ⟨m, hm, hradc⟩ := hmoist hsoil
      obtain ⟨rv, hr⟩ := Option.isSome_iff_exists.mp hradc
      subst hsoil
      simp [soil_do_POST, mkReq, soil_tryBlock, soil_save_to_csv, pyIndex, asNum,
            cellOf, pyInt_99, hget, hdid, hts, hv, hm, hr,
            jgetD_of_get hm, jgetD_of_get hr,
            exceptBind_ok, exceptBind_err, exceptPure]
    · simp [soil_do_POST, mkReq, soil_tryBlock, soil_save_to_csv, pyIndex, asNum,
            cellOf, pyInt_99, hget, hne, hsoil, hdid, hts, hv,
            exceptBind_ok, exceptBind_err, exceptPure]

/-- C5 witness: a concrete battery reading lands in the battery ledger
with the four battery columns. -/
theorem C5_type_routing_witness :
    soil_do_POST (mkReq bodyBattery) "20251012" []
      = (Outcome.response soil_resp200,
         FS.append [] (battery_filename "20251012") battery_header
           [Cell.iso (Instant.fromtimestamp (1700000000000 / 1000)),
            cellOf (JsonVal.s "esp32-1"), Cell.n 3, Cell.s "battery"]) :=
  (C5_type_routing bodyBattery (JsonVal.s "esp32-1") 1700000000000 3
    "20251012" [] rfl rfl rfl).1 rfl

/-- C6 counterexample: `soil_server.py` answers an unknown POST path
with a bare 404 — no headers, no body at all — and the enhanced server's
GET handler does the same for unknown GET paths; `soil_server.py`'s 400
also carries no body. This contradicts the claim that every failure
carries a JSON `status`/`message` body and that every unknown route gets
the endpoint-not-found JSON body. -/
theorem C6_counterexample :
    soil_do_POST { path := "/unknown", contentLength := some "0", body := none }
        "20251012" []
        = (Outcome.response { status := 404, headers := [], body := none }, [])
      ∧ enh_do_GET { path := "/unknown", contentLength := some "0", body := none }
          (Instant.fromtimestamp 0) []
        = (Outcome.response { status := 404, headers := [], body := none }, [])
      ∧ soil_do_POST { path := "/soil-data", contentLength := some "10", body := none }
          "20251012" []
        = (Outcome.response soil_resp400, [])
      ∧ soil_resp400.body = none :=
  ⟨rfl, rfl, rfl, rfl⟩

/-- C6 amended: only the enhanced server's POST handler guarantees JSON
error bodies — its 400 carries `status: "error"` with `str(e)` as the
message, and its unknown POST paths get the endpoint-not-found JSON
body. `soil_server.py`'s 400 and 404 responses carry no body, and the
enhanced server's GET handler answers unknown paths 404 with no body. -/
theorem C6_amended (req : Request) (today : String) (fs : FS) (now : Instant) :
    (req.path = "/soil-data" → ∀ n, pyInt req.contentLength = Except.ok n →
      ∀ e, enh_tryBlock req.body = Except.error e →
        enh_do_POST req today fs = (Outcome.response (enh_resp400 e), fs)
          ∧ (enh_resp400 e).field "status" = some (BVal.s "error")
          ∧ (enh_resp400 e).field "message" = some (BVal.s (PErr.pystr e)))
    ∧ (req.path ≠ "/soil-data" → req.path ≠ "/test" →
        enh_do_POST req today fs = (Outcome.response enh_resp404, fs)
          ∧ enh_resp404.body = some [("status", BVal.s "error"),
                                     ("message", BVal.s "Endpoint not found")])
    ∧ (req.path ≠ "/soil-data" →
        soil_do_POST req today fs = (Outcome.response soil_resp404, fs)
          ∧ soil_resp404.body = none)
    ∧ (req.path ≠ "/status" →
        enh_do_GET req now fs
          = (Outcome.response { status := 404, headers := [], body := none }, fs)) := by
  refine ⟨?_, ?_, ?_, ?_⟩
  · intro hpath n hn e he
    refine ⟨by simp [enh_do_POST, hpath, hn, he], rfl, rfl⟩
  · intro h1 h2
    exact ⟨by simp [enh_do_POST, h1, h2], rfl⟩
  · intro h1
    exact ⟨by simp [soil_do_POST, h1], rfl⟩
  · intro h1
    simp [enh_do_GET, h1]

/-- C6 amended witness: a concrete unknown POST path on the enhanced
server gets the 404 endpoint-not-found JSON body. -/
theorem C6_amended_witness :
    enh_do_POST { path := "/nope", contentLength := none, body := none }
        "2025-10-12" []
      = (Outcome.response enh_resp404, [])
      ∧ enh_resp404.body = some [("status", BVal.s "error"),
                                 ("message", BVal.s "Endpoint not found")] :=
  (C6_amended { path := "/nope", contentLength := none, body := none }
    "2025-10-12" [] (Instant.fromtimestamp 0)).2.1 (by decide) (by decide)

theorem soil_post_soil_success (data : JsonObj) (did : JsonVal) (ts m v : ℚ)
    (rv : JsonVal) (today : String) (fs : FS)
    (hget : jgetD data "type" (JsonVal.s "soil") = JsonVal.s "soil")
    (hdid : jget data "device_id" = some did)
    (hts : jget data "timestamp" = some (JsonVal.n ts))
    (hm : jget data "moisture_percent" = some (JsonVal.n m))
    (hv : jget data "voltage" = some (JsonVal.n v))
    (hr : jget data "raw_adc" = some rv) :
    soil_do_POST (mkReq data) today fs
      = (Outcome.response soil_resp200,
         FS.append fs (soil_filename today) soil_header
           [Cell.iso (Instant.fromtimestamp (ts / 1000)), cellOf did,
            Cell.n m, Cell.n v, cellOf rv, Cell.s "soil"]) := by
  simp [soil_do_POST, mkReq, soil_tryBlock, soil_save_to_csv, pyIndex, asNum,
        cellOf, pyInt_99, hget, hdid, hts, hv, hm, hr,
        jgetD_of_get hm, jgetD_of_get hr,
        exceptBind_ok, exceptBind_err, exceptPure]

/-- C7: on every accepted POST `/soil-data`, the enhanced server
responds 200 with a JSON success body whose `timestamp` field is the
ISO-8601 rendering of the instant `timestamp_ms / 1000` seconds since
the epoch (the instant handed to `isoformat()` is exactly
`fromtimestamp(data['timestamp'] / 1000)`); `soil_server.py`'s success
body is the fixed `status: "success"` object with no timestamp field, so
the claim's conditional clause holds vacuously for it. -/
theorem C7_success_timestamp (data : JsonObj) (today : String) (fs : FS)
    (ts : ℚ) (did : JsonVal) (m v : ℚ) (r : JsonVal)
    (hts : jget data "timestamp" = some (JsonVal.n ts))
    (hdid : jget data "device_id" = some did)
    (hm : jget data "moisture_percent" = some (JsonVal.n m))
    (hv : jget data "voltage" = some (JsonVal.n v))
    (hr : jget data "raw_adc" = some r) :
    (∃ fs1, enh_do_POST (mkReq data) today fs
        = (Outcome.response (enh_resp200 (Instant.fromtimestamp (ts / 1000))), fs1))
      ∧ (enh_resp200 (Instant.fromtimestamp (ts / 1000))).status = 200
      ∧ (enh_resp200 (Instant.fromtimestamp (ts / 1000))).field "status"
          = some (BVal.s "success")
      ∧ (enh_resp200 (Instant.fromtimestamp (ts / 1000))).field "timestamp"
          = some (BVal.iso (Instant.fromtimestamp (ts / 1000)))
      ∧ (jget data "type" = none →
          ∃ fs1, soil_do_POST (mkReq data) today fs
            = (Outcome.response soil_resp200, fs1))
      ∧ soil_resp200.status = 200
      ∧ soil_resp200.field "status" = some (BVal.s "success")
      ∧ soil_resp200.field "timestamp" = none := by
  refine ⟨⟨_, enh_post_success data today fs ts did m v r hts hdid hm hv hr⟩,
          rfl, rfl, rfl, ?_, rfl, rfl, rfl⟩
  intro htype
  exact ⟨_, soil_post_soil_success data did ts m v r today fs
    (jgetD_of_none htype) hdid hts hm hv hr⟩

/-- C7 witness: the concrete full soil body from the spec example. -/
theorem C7_success_timestamp_witness :
    (∃ fs1, enh_do_POST (mkReq bodyFull5) "2025-10-12" []
        = (Outcome.response (enh_resp200 (Instant.fromtimestamp (1700000000000 / 1000))), fs1))
      ∧ (enh_resp200 (Instant.fromtimestamp (1700000000000 / 1000))).status = 200
      ∧ (enh_resp200 (Instant.fromtimestamp (1700000000000 / 1000))).field "status"
          = some (BVal.s "success")
      ∧ (enh_resp200 (Instant.fromtimestamp (1700000000000 / 1000))).field "timestamp"
          = some (BVal.iso (Instant.fromtimestamp (1700000000000 / 1000)))
      ∧ (jget bodyFull5 "type" = none →
          ∃ fs1, soil_do_POST (mkReq bodyFull5) "2025-10-12" []
            = (Outcome.response soil_resp200, fs1))
      ∧ soil_resp200.status = 200
      ∧ soil_resp200.field "status" = some (BVal.s "success")
      ∧ soil_resp200.field "timestamp" = none :=
  C7_success_timestamp bodyFull5 "2025-10-12" [] 1700000000000
    (JsonVal.s "esp32-1") 42 3 (JsonVal.n 512) rfl rfl rfl rfl rfl

/-- C8 counterexample: `soil_server.py`'s successful POST response
carries only `Content-type` — no `Access-Control-Allow-Origin` header —
and its 400 response carries no `Content-type` header (and no body), so
neither half of the claim holds across the codebase. -/
theorem C8_counterexample :
    (soil_do_POST (mkReq bodyFull5) "20251012" []).1
        = Outcome.response soil_resp200
      ∧ soil_resp200.headers = [ctHeader]
      ∧ acaoHeader ∉ soil_resp200.headers
      ∧ soil_resp400.headers = []
      ∧ ctHeader ∉ soil_resp400.headers :=
  ⟨rfl, rfl, by decide, rfl, by decide⟩

/-- C8 amended: the enhanced server's successful POST carries both
`Content-type: application/json` and `Access-Control-Allow-Origin: *`,
and its 400, `/test` and POST-404 responses carry `Content-type`;
`soil_server.py` sends `Content-type` only on success — its success
response has no `Access-Control-Allow-Origin` header, and its 400 and
404 responses carry no headers (and no body) at all. -/
theorem C8_amended (data : JsonObj) (today : String) (fs : FS)
    (ts : ℚ) (did : JsonVal) (m v : ℚ) (r : JsonVal)
    (hts : jget data "timestamp" = some (JsonVal.n ts))
    (hdid : jget data "device_id" = some did)
    (hm : jget data "moisture_percent" = some (JsonVal.n m))
    (hv : jget data "voltage" = some (JsonVal.n v))
    (hr : jget data "raw_adc" = some r) :
    (∃ fs1, enh_do_POST (mkReq data) today fs
        = (Outcome.response (enh_resp200 (Instant.fromtimestamp (ts / 1000))), fs1))
      ∧ (enh_resp200 (Instant.fromtimestamp (ts / 1000))).headers
          = [ctHeader, acaoHeader]
      ∧ (jget data "type" = none →
          ∃ fs1, soil_do_POST (mkReq data) today fs
            = (Outcome.response soil_resp200, fs1))
      ∧ soil_resp200.headers = [ctHeader]
      ∧ acaoHeader ∉ soil_resp200.headers
      ∧ (∀ e, (enh_resp400 e).headers = [ctHeader])
      ∧ enh_respTest.headers = [ctHeader]
      ∧ enh_resp404.headers = [ctHeader]
      ∧ soil_resp400.headers = []
      ∧ soil_resp404.headers = [] := by
  refine ⟨⟨_, enh_post_success data today fs ts did m v r hts hdid hm hv hr⟩,
          rfl, ?_, rfl, by decide, fun e => rfl, rfl, rfl, rfl, rfl⟩
  intro htype
  exact ⟨_, soil_post_soil_success data did ts m v r today fs
    (jgetD_of_none htype) hdid hts hm hv hr⟩

/-- C8 amended witness: the amended header facts at the concrete full
soil body. -/
theorem C8_amended_witness :
    (∃ fs1, enh_do_POST (mkReq bodyFull5) "2025-10-12" []
        = (Outcome.response (enh_resp200 (Instant.fromtimestamp (1700000000000 / 1000))), fs1))
      ∧ (enh_resp200 (Instant.fromtimestamp (1700000000000 / 1000))).headers
          = [ctHeader, acaoHeader]
      ∧ (jget bodyFull5 "type" = none →
          ∃ fs1, soil_do_POST (mkReq bodyFull5) "2025-10-12" []
            = (Outcome.response soil_resp200, fs1))
      ∧ soil_resp200.headers = [ctHeader]
      ∧ acaoHeader ∉ soil_resp200.headers
      ∧ (∀ e, (enh_resp400 e).headers = [ctHeader])
      ∧ enh_respTest.headers = [ctHeader]
      ∧ enh_resp404.headers = [ctHeader]
      ∧ soil_resp400.headers = []
      ∧ soil_resp404.headers = [] :=
  C8_amended bodyFull5 "2025-10-12" [] 1700000000000
    (JsonVal.s "esp32-1") 42 3 (JsonVal.n 512) rfl rfl rfl rfl rfl

/-- C10: the daily CSV file an accepted reading is appended to is named
by the server's wall-clock date parameter `today`, not by the date in
the reading's own `timestamp` field: `today` and `ts` are quantified
independently here (the witness posts a 2023 timestamp on a 2025 day),
the appended row lands in `enh_filename today`, and every other file is
untouched. -/
theorem C10_wall_clock_file_selection (data : JsonObj) (today : String) (fs : FS)
    (ts : ℚ) (did : JsonVal) (m v : ℚ) (r : JsonVal)
    (hts : jget data "timestamp" = some (JsonVal.n ts))
    (hdid : jget data "device_id" = some did)
    (hm : jget data "moisture_percent" = some (JsonVal.n m))
    (hv : jget data "voltage" = some (JsonVal.n v))
    (hr : jget data "raw_adc" = some r) :
    FS.look ((enh_do_POST (mkReq data) today fs).2) (enh_filename today)
        = some ((FS.look fs (enh_filename today)).getD [enh_header]
            ++ [[Cell.iso (Instant.fromtimestamp (ts / 1000)), cellOf did,
                 Cell.n m, Cell.n v, cellOf r]])
      ∧ ∀ other, other ≠ enh_filename today →
          FS.look ((enh_do_POST (mkReq data) today fs).2) other = FS.look fs other := by
  have hstep := enh_post_success data today fs ts did m v r hts hdid hm hv hr
  constructor
  · rw [hstep]
    rw [FS.look_appendRow_self, FS.look_touch_self]
    simp
  · intro other hother
    rw [hstep]
    rw [FS.look_appendRow_ne _ _ _ _ hother, FS.look_touch_ne _ _ _ _ hother]

/-- C10 witness: a reading whose timestamp falls on 2023-11-14 is
appended to the file named with the wall-clock date 2025-10-12. -/
theorem C10_wall_clock_file_selection_witness :
    FS.look ((enh_do_POST (mkReq bodyFull5) "2025-10-12" []).2)
        (enh_filename "2025-10-12")
        = some ((FS.look [] (enh_filename "2025-10-12")).getD [enh_header]
            ++ [[Cell.iso (Instant.fromtimestamp (1700000000000 / 1000)),
                 cellOf (JsonVal.s "esp32-1"), Cell.n 42, Cell.n 3,
                 cellOf (JsonVal.n 512)]])
      ∧ ∀ other, other ≠ enh_filename "2025-10-12" →
          FS.look ((enh_do_POST (mkReq bodyFull5) "2025-10-12" []).2) other
            = FS.look [] other :=
  C10_wall_clock_file_selection bodyFull5 "2025-10-12" [] 1700000000000
    (JsonVal.s "esp32-1") 42 3 (JsonVal.n 512) rfl rfl rfl rfl rfl
